import Mathlib

/-!
Shallow embedding of the booking creation and access-control subsystem of
`alx_travel_app` (Django REST Framework backend), translated from
`src/alx_travel_app/listings/models.py`, `serializers.py` and `views.py`.

Conventions of the embedding:
* Users and primary keys are modelled by their opaque identifiers (`Nat`).
* `DecimalField(max_digits := 10, decimal_places := 2)` values are exact
  decimals with two fractional digits; they are modelled as integer counts
  of hundredths (cents), so `Decimal` multiplication by an integer number
  of nights is exactly integer multiplication on this representation.
* Python `datetime.date` values are modelled by their proleptic Gregorian
  ordinals (`Int`), exactly as Python's `date.toordinal`; the Python
  expression `(end_date - start_date).days` is then ordinal subtraction.
* Python attribute access on a model instance is modelled by a lookup
  against the table of attribute names the model actually declares: a name
  the model does not declare yields `none`, which the calling code turns
  into the Python `AttributeError` outcome.
* A request handler is a function into `Except ApiError _`: `.error`
  means the request fails without persisting anything.
-/

/-- Python `datetime`: leap-year test of the proleptic Gregorian calendar. -/
def isLeapYear (y : Nat) : Bool :=
  y % 4 == 0 && (y % 100 != 0 || y % 400 == 0)

/-- Python `datetime`: days in the year strictly before month `m` (1..12). -/
def daysBeforeMonth (y m : Nat) : Nat :=
  (match m with
   | 1 => 0 | 2 => 31 | 3 => 59 | 4 => 90 | 5 => 120 | 6 => 151
   | 7 => 181 | 8 => 212 | 9 => 243 | 10 => 273 | 11 => 304 | _ => 334)
  + (if 2 < m ∧ isLeapYear y then 1 else 0)

/-- Python `date(y, m, d).toordinal()`: day count in the proleptic Gregorian
calendar with `date(1, 1, 1).toordinal() = 1`.  Differences of ordinals are
exactly `timedelta.days` for whole-day dates. -/
def dateOrdinal (y m d : Nat) : Int :=
  365 * ((y : Int) - 1)
    + (((y - 1) / 4 : Nat) : Int)
    - (((y - 1) / 100 : Nat) : Int)
    + (((y - 1) / 400 : Nat) : Int)
    + (daysBeforeMonth y m : Int)
    + (d : Int)

/-- `Booking.BookingStatusChoices` of `models.py`: the status enumeration. -/
inductive BookingStatus where
  | pending
  | confirmed
  | canceled
deriving DecidableEq, Repr

/-- The `Property` model of `models.py` (fields the subsystem reads).
`price_per_night` is `DecimalField(max_digits := 10, decimal_places := 2)`,
held in cents; `host` is the foreign key to the owning user. -/
structure Property where
  property_id : Nat
  host : Nat
  price_per_night : Int
deriving DecidableEq, Repr

/-- Python attribute lookup for decimal-valued attributes of a `Property`
instance: the model declares exactly the field `price_per_night`; any other
name is absent and raises `AttributeError` at the caller. -/
def Property.decimalAttr (p : Property) (name : String) : Option Int :=
  if name = "price_per_night" then some p.price_per_night else none

/-- The `Booking` model of `models.py` (fields the subsystem reads).
`property` holds the referenced `Property` row, `user` the guest's id. -/
structure Booking where
  booking_id : Nat
  property : Property
  user : Nat
  start_date : Int
  end_date : Int
  total_price : Int
  status : BookingStatus
deriving DecidableEq, Repr

/-- The `Payment` model of `models.py` (fields the subsystem reads). -/
structure Payment where
  payment_id : Nat
  booking : Booking
  amount : Int
deriving DecidableEq, Repr

/-- The `Message` model of `models.py` (fields the subsystem reads):
`sender` and `recipient` are user ids. -/
structure Message where
  message_id : Nat
  sender : Nat
  recipient : Nat
  message_body : String
deriving DecidableEq, Repr

/-- Outcomes a request can fail with: `validation` is a DRF
`ValidationError` (client error 400), `attributeError` a Python
`AttributeError` escaping the handler (server fault 500), `notFound` an
HTTP 404, `permissionDenied` an HTTP 403, `improperlyConfigured` a Django
`ImproperlyConfigured` raised while a serializer builds its fields,
escaping the handler (server fault 500). -/
inductive ApiError where
  | validation (detail : String)
  | attributeError (name : String)
  | notFound
  | permissionDenied
  | improperlyConfigured (fieldName : String)
deriving DecidableEq, Repr

/-- The JSON body of a booking create request, as the writable fields of
`BookingSerializer` receive it: `property_id` and `user_id` are the
write-only `PrimaryKeyRelatedField`s, the dates are `DateField`s, and a
client-supplied `status` may be present in the body (the serializer lists
`status` under `read_only_fields`, so deserialization drops it). -/
structure BookingCreatePayload where
  property_id : Option Nat
  user_id : Option Nat
  start_date : Option Int
  end_date : Option Int
  status : Option BookingStatus
deriving DecidableEq, Repr

/-- `validated_data` as `BookingSerializer.create` receives it: the
resolved `Property` row, the guest id, the two dates, and `status`, which
is present only when `serializer.save` is called with an explicit `status`
keyword (never from client input, since `status` is read-only). -/
structure BookingValidated where
  property : Property
  user : Nat
  start_date : Int
  end_date : Int
  status : Option BookingStatus
deriving DecidableEq, Repr

/-- `validated_data` for a partial update (PATCH): every writable field is
optional; `status` is again only ever set through `serializer.save`
keywords, never from the request body. -/
structure BookingUpdateValidated where
  property : Option Property
  user : Option Nat
  start_date : Option Int
  end_date : Option Int
  status : Option BookingStatus
deriving DecidableEq, Repr

namespace BookingSerializer

/-- Deserialization of a create request body (DRF `run_validation` over the
declared writable fields of `BookingSerializer`): `property_id` and
`user_id` are required and must resolve against their querysets
(`Property.objects.all()`, `User.objects.all()`), `start_date` and
`end_date` are required; `status` is in `read_only_fields` and is dropped
from the validated data whatever the body holds. -/
def toInternalCreate (props : List Property) (users : List Nat)
    (p : BookingCreatePayload) : Except ApiError BookingValidated :=
  match p.property_id with
  | none => .error (.validation "property_id: This field is required.")
  | some pid =>
    match props.find? (fun pr => pr.property_id == pid) with
    | none => .error (.validation "property_id: Invalid pk - object does not exist.")
    | some pr =>
      match p.user_id with
      | none => .error (.validation "user_id: This field is required.")
      | some uid =>
        if users.contains uid then
          match p.start_date, p.end_date with
          | some s, some e =>
              .ok { property := pr, user := uid, start_date := s, end_date := e,
                    status := none }
          | none, _ => .error (.validation "start_date: This field is required.")
          | _, none => .error (.validation "end_date: This field is required.")
        else .error (.validation "user_id: Invalid pk - object does not exist.")

/-- `BookingSerializer.create` of `serializers.py` (lines 83-103): checks
the date order, the defensive night count, then computes
`validated_data['total_price'] = property_instance.pricepernight * num_nights`
-- an attribute access under the name `pricepernight`, resolved against the
`Property` model's declared fields -- defaults `status` to `PENDING`, and
materializes the row (`super().create`) under a fresh id. -/
def create (fresh : Nat) (vd : BookingValidated) : Except ApiError Booking :=
  if vd.start_date ≥ vd.end_date then
    .error (.validation "End date must be after start date.")
  else
    let num_nights : Int := vd.end_date - vd.start_date
    if num_nights ≤ 0 then
      .error (.validation "Booking must be for at least one night.")
    else
      match vd.property.decimalAttr "pricepernight" with
      | none => .error (.attributeError "pricepernight")
      | some ppn =>
          .ok { booking_id := fresh, property := vd.property, user := vd.user,
                start_date := vd.start_date, end_date := vd.end_date,
                total_price := ppn * num_nights,
                status := vd.status.getD .pending }

/-- Deserialization of a PATCH body (DRF `run_validation` with
`partial := true`): only the supplied writable fields are validated and
kept; `status` is in `read_only_fields` and is dropped whatever the body
holds; `booking_id`, `total_price` and `created_at` are read-only too. -/
def toInternalPatch (props : List Property) (users : List Nat)
    (p : BookingCreatePayload) : Except ApiError BookingUpdateValidated := do
  let prop ← match p.property_id with
    | none => pure none
    | some pid =>
      match props.find? (fun pr => pr.property_id == pid) with
      | none => throw (.validation "property_id: Invalid pk - object does not exist.")
      | some pr => pure (some pr)
  let usr ← match p.user_id with
    | none => pure none
    | some uid =>
      if users.contains uid then pure (some uid)
      else throw (.validation "user_id: Invalid pk - object does not exist.")
  pure { property := prop, user := usr, start_date := p.start_date,
         end_date := p.end_date, status := none }

/-- `BookingSerializer.update` of `serializers.py` (lines 106-115): raises
when `property` or `user` is present in the validated data, pops `status`
onto the instance when present, then (`super().update`) writes every
remaining validated field onto the instance. -/
def update (inst : Booking) (vd : BookingUpdateValidated) :
    Except ApiError Booking :=
  if vd.property.isSome ∨ vd.user.isSome then
    .error (.validation "Property and user cannot be changed after booking creation.")
  else
    let inst := match vd.status with
      | some s => { inst with status := s }
      | none => inst
    .ok { inst with
          start_date := vd.start_date.getD inst.start_date,
          end_date := vd.end_date.getD inst.end_date }

end BookingSerializer

namespace IsBookingOwner

/-- `IsBookingOwner.has_object_permission` of `views.py` (lines 58-62):
permits every safe (read) method, and an unsafe method only for the
booking's owner. -/
def has_object_permission (safeMethod : Bool) (actor : Nat) (obj : Booking) :
    Bool :=
  safeMethod || obj.user == actor

end IsBookingOwner

namespace BookingViewSet

/-- `BookingViewSet.get_queryset` of `views.py` (lines 244-255): an
authenticated user sees `Q(user = u) | Q(property__host = u)`, an
unauthenticated one an empty queryset. -/
def get_queryset (user : Option Nat) (bookings : List Booking) :
    List Booking :=
  match user with
  | some u => bookings.filter (fun b => b.user == u || b.property.host == u)
  | none => []

/-- The create pipeline for `POST /bookings/`: deserialize the body, then
`perform_create` calls `serializer.save(user := request.user)`, which
overwrites the validated `user` with the authenticated actor before
`BookingSerializer.create` runs. -/
def viewCreate (actor : Nat) (props : List Property) (users : List Nat)
    (p : BookingCreatePayload) (fresh : Nat) : Except ApiError Booking :=
  (BookingSerializer.toInternalCreate props users p).bind
    (fun vd => BookingSerializer.create fresh { vd with user := actor })

/-- The retrieve pipeline for `GET /bookings/{pk}/`: `get_object` looks the
id up inside the scoped queryset and answers 404 when it is absent.  For
the retrieve action `get_permissions` yields `[IsAuthenticated]` only, so
no object-level ownership check runs on safe access. -/
def retrieve (actor : Nat) (bookings : List Booking) (pk : Nat) :
    Except ApiError Booking :=
  match (get_queryset (some actor) bookings).find?
      (fun b => b.booking_id == pk) with
  | none => .error .notFound
  | some b => .ok b

/-- The pipeline for `PATCH /bookings/{pk}/`: `get_object` inside the
scoped queryset (404 when absent), then the object-level
`IsBookingOwner` check (PATCH is unsafe, so only the owner passes), then
deserialization of the body and `BookingSerializer.update`. -/
def patch_update (actor : Nat) (bookings : List Booking)
    (props : List Property) (users : List Nat) (pk : Nat)
    (p : BookingCreatePayload) : Except ApiError Booking :=
  match (get_queryset (some actor) bookings).find?
      (fun b => b.booking_id == pk) with
  | none => .error .notFound
  | some b =>
    if IsBookingOwner.has_object_permission false actor b then
      (BookingSerializer.toInternalPatch props users p).bind
        (BookingSerializer.update b)
    else .error .permissionDenied

end BookingViewSet

namespace PaymentViewSet

/-- `PaymentViewSet.get_queryset` of `views.py` (lines 306-316): an
authenticated user sees
`Q(booking__user = u) | Q(booking__property__host = u)`. -/
def get_queryset (user : Option Nat) (payments : List Payment) :
    List Payment :=
  match user with
  | some u =>
      payments.filter
        (fun p => p.booking.user == u || p.booking.property.host == u)
  | none => []

end PaymentViewSet

namespace MessageViewSet

/-- `MessageViewSet.get_queryset` of `views.py` (lines 447-460): an
authenticated user sees `Q(sender = u) | Q(recipient = u)`. -/
def get_queryset (user : Option Nat) (msgs : List Message) : List Message :=
  match user with
  | some u => msgs.filter (fun m => m.sender == u || m.recipient == u)
  | none => []

end MessageViewSet

/-- Python `str.isspace` for a single character: the whitespace set that
`str.strip()` with no argument removes.  It holds the ASCII whitespace
characters tab, LF, VT (0x0b), FF (0x0c), CR and space, the separator
control characters 0x1c-0x1f, NEL (0x85), NBSP (0xa0), Ogham space mark
(0x1680), the Unicode space separators 0x2000-0x200a, the line and
paragraph separators 0x2028/0x2029, NNBSP (0x202f), the mathematical
space (0x205f) and the ideographic space (0x3000). -/
def pyIsSpace (c : Char) : Bool :=
  let n := c.toNat
  (9 ≤ n && n ≤ 13) || (28 ≤ n && n ≤ 31) || n == 32 || n == 133
    || n == 160 || n == 0x1680 || (0x2000 ≤ n && n ≤ 0x200a)
    || n == 0x2028 || n == 0x2029 || n == 0x202f || n == 0x205f
    || n == 0x3000

/-- Python `str.strip()` with no argument: drop the characters of
`pyIsSpace` from both ends of the string. -/
def pyStrip (s : String) : String :=
  ⟨((s.data.dropWhile pyIsSpace).reverse.dropWhile pyIsSpace).reverse⟩

namespace ReviewSerializer

/-- Input validation of the `comment` field of `ReviewSerializer`:
`Review.comment` is `TextField(null := false)` with the Django default
`blank := false`, so the generated DRF `CharField` has
`allow_blank := false` and the DRF default `trim_whitespace := true`; its
`run_validation` rejects a body whose comment is the empty string or
strips to the empty string, and otherwise keeps the stripped text. -/
def validateComment (data : String) : Except ApiError String :=
  if data = "" ∨ pyStrip data = "" then
    .error (.validation "comment: This field may not be blank.")
  else .ok (pyStrip data)

end ReviewSerializer

/-! Response rendering.  A DRF list endpoint renders every row of the
scoped queryset through its serializer; `to_representation` forces the
serializer's field construction (`ModelSerializer.get_fields`), which
checks each name of `Meta.fields` against the fields declared on the
serializer class and the fields of the model, and raises
`ImproperlyConfigured` at the first name that is neither. -/

/-- Field names the `Property` model of `models.py` declares. -/
def propertyModelFields : List String :=
  ["property_id", "host", "name", "description", "location",
   "price_per_night", "created_at", "updated_at"]

/-- Field names the `Message` model of `models.py` declares. -/
def messageModelFields : List String :=
  ["message_id", "sender", "recipient", "message_body", "sent_at"]

/-- DRF `ModelSerializer.get_fields`: every name of `Meta.fields` must be
a field declared on the serializer class itself or a field of the model;
the first name that is neither raises `ImproperlyConfigured`. -/
def buildFields (declared modelFields metaFields : List String) :
    Except ApiError (List String) :=
  match metaFields.find?
      (fun f => !(declared.contains f || modelFields.contains f)) with
  | some f => .error (.improperlyConfigured f)
  | none => .ok metaFields

/-- `NestedPropertySerializer` of `serializers.py` (lines 16-20):
`Meta.fields`, with no fields declared on the class itself. -/
def NestedPropertySerializer.metaFields : List String :=
  ["property_id", "name", "location", "pricepernight"]

/-- Field construction of `NestedPropertySerializer`, checked against the
`Property` model. -/
def NestedPropertySerializer.fields : Except ApiError (List String) :=
  buildFields [] propertyModelFields NestedPropertySerializer.metaFields

/-- Rendering one booking (`BookingSerializer.to_representation`): the
nested `property` field renders through `NestedPropertySerializer`,
forcing that serializer's field construction; on success the row's data is
returned. -/
def BookingSerializer.toRepresentation (b : Booking) :
    Except ApiError Booking :=
  NestedPropertySerializer.fields.map (fun _ => b)

/-- Rendering one payment (`PaymentSerializer.to_representation`): the
nested `booking` field renders through `BookingSerializer`. -/
def PaymentSerializer.toRepresentation (p : Payment) :
    Except ApiError Payment :=
  (BookingSerializer.toRepresentation p.booking).map (fun _ => p)

/-- Fields declared on the `MessageSerializer` class of `serializers.py`
(lines 117-125). -/
def MessageSerializer.declaredFields : List String :=
  ["sender", "receiver", "parent_message", "sender_id", "receiver_id",
   "parent_message_id"]

/-- `Meta.fields` of `MessageSerializer` (lines 129-133). -/
def MessageSerializer.metaFields : List String :=
  ["message_id", "sender", "sender_id", "receiver", "receiver_id",
   "parent_message", "parent_message_id", "message_body", "sent_at",
   "is_read", "edited", "edited_at"]

/-- Field construction of `MessageSerializer`, checked against the
`Message` model. -/
def MessageSerializer.fields : Except ApiError (List String) :=
  buildFields MessageSerializer.declaredFields messageModelFields
    MessageSerializer.metaFields

/-- Rendering one message (`MessageSerializer.to_representation`): forces
the serializer's field construction. -/
def MessageSerializer.toRepresentation (m : Message) :
    Except ApiError Message :=
  MessageSerializer.fields.map (fun _ => m)

/-- The pipeline for `GET /bookings/` (list): every row of the scoped
queryset is rendered; the first rendering failure aborts the response. -/
def BookingViewSet.list (user : Option Nat) (bookings : List Booking) :
    Except ApiError (List Booking) :=
  (BookingViewSet.get_queryset user bookings).mapM
    BookingSerializer.toRepresentation

/-- The pipeline for `GET /payments/` (list). -/
def PaymentViewSet.list (user : Option Nat) (payments : List Payment) :
    Except ApiError (List Payment) :=
  (PaymentViewSet.get_queryset user payments).mapM
    PaymentSerializer.toRepresentation

/-- The pipeline for `GET /messages/` (list). -/
def MessageViewSet.list (user : Option Nat) (msgs : List Message) :
    Except ApiError (List Message) :=
  (MessageViewSet.get_queryset user msgs).mapM
    MessageSerializer.toRepresentation

/-! Concrete fixtures used by witnesses and counterexamples: a property
priced 150.00 per night (15000 cents) hosted by user 2, and a booking of
it by guest 7 for 2025-08-01 to 2025-08-05 (4 nights, 600.00 total). -/

/-- A property: id 1, host 2, `price_per_night` 150.00 (15000 cents). -/
def propEx : Property :=
  { property_id := 1, host := 2, price_per_night := 15000 }

/-- A second property: id 5, host 3, `price_per_night` 200.00. -/
def propEx2 : Property :=
  { property_id := 5, host := 3, price_per_night := 20000 }

/-- A booking: id 10, property `propEx`, guest 7, 2025-08-01 to 2025-08-05,
`total_price` 600.00 (= 150.00 × 4 nights), status pending. -/
def bookingEx : Booking :=
  { booking_id := 10, property := propEx, user := 7,
    start_date := dateOrdinal 2025 8 1, end_date := dateOrdinal 2025 8 5,
    total_price := 60000, status := .pending }

/-- Validated create data for `bookingEx`'s request. -/
def vdEx : BookingValidated :=
  { property := propEx, user := 7, start_date := dateOrdinal 2025 8 1,
    end_date := dateOrdinal 2025 8 5, status := none }

/-- A PATCH body that only moves the end date to 2025-08-03. -/
def patchEndPayload : BookingCreatePayload :=
  { property_id := none, user_id := none, start_date := none,
    end_date := some (dateOrdinal 2025 8 3), status := none }

/-- A well-formed create body for `propEx`, guest id left out. -/
def payloadNoUser : BookingCreatePayload :=
  { property_id := some 1, user_id := none,
    start_date := some (dateOrdinal 2025 8 1),
    end_date := some (dateOrdinal 2025 8 5), status := none }

/-- A well-formed create body for `propEx` with a client-chosen guest id. -/
def payloadWithGuest (g : Nat) : BookingCreatePayload :=
  { property_id := some 1, user_id := some g,
    start_date := some (dateOrdinal 2025 8 1),
    end_date := some (dateOrdinal 2025 8 5), status := none }

/-! ## Claims -/

/-- C1: the spec says a successful booking creation persists
`total_price = price_per_night × nights` (150.00 × 4 nights = 600.00 for
2025-08-01 to 2025-08-05).  The code cannot: `BookingSerializer.create`
reads the attribute `pricepernight`, which the `Property` model does not
declare (its field is `price_per_night`), so the spec's own example request
dies with `AttributeError` instead of persisting 600.00. -/
theorem C1_create_crashes_on_price_attribute :
    BookingViewSet.viewCreate 7 [propEx] [7] (payloadWithGuest 7) 100
      = .error (.attributeError "pricepernight") := by
  rfl

/-- C2: the claim says an owner-update changing only `status` may write any
value of the enumeration.  In the code `status` is in `read_only_fields`,
so a PATCH body asking for `confirmed` is stripped during deserialization
and the stored record keeps status `pending`; the request still reports
success, and a body changing `property_id` is rejected with the
immutability `ValidationError`. -/
theorem C2_owner_status_patch_leaves_status_pending :
    BookingViewSet.patch_update 7 [bookingEx] [propEx, propEx2] [7] 10
      { property_id := none, user_id := none, start_date := none,
        end_date := none, status := some .confirmed }
      = .ok bookingEx
    ∧ bookingEx.status = .pending
    ∧ BookingViewSet.patch_update 7 [bookingEx] [propEx, propEx2] [7] 10
        { property_id := some 5, user_id := none, start_date := none,
          end_date := none, status := none }
      = .error (.validation "Property and user cannot be changed after booking creation.") := by
  exact ⟨rfl, rfl, rfl⟩

/-- Supporting lemma: the three `get_queryset` filters are scoped exactly
to the rows the requester participates in (guest or host of the booked
property for bookings, booking guest or property host for payments, sender
or recipient for messages). -/
theorem get_queryset_scoped_membership (u : Nat) (bs : List Booking)
    (ps : List Payment) (ms : List Message) :
    (∀ b : Booking, b ∈ BookingViewSet.get_queryset (some u) bs ↔
      b ∈ bs ∧ (b.user = u ∨ b.property.host = u)) ∧
    (∀ p : Payment, p ∈ PaymentViewSet.get_queryset (some u) ps ↔
      p ∈ ps ∧ (p.booking.user = u ∨ p.booking.property.host = u)) ∧
    (∀ m : Message, m ∈ MessageViewSet.get_queryset (some u) ms ↔
      m ∈ ms ∧ (m.sender = u ∨ m.recipient = u)) := by
  refine ⟨fun b => ?_, fun p => ?_, fun m => ?_⟩ <;>
    simp [BookingViewSet.get_queryset, PaymentViewSet.get_queryset,
      MessageViewSet.get_queryset, List.mem_filter]

/-- C3: the claim says the booking, payment and message list operations
return exactly the records the requester participates in.  The querysets
are scoped that way (`get_queryset_scoped_membership`), but rendering any
non-empty list crashes instead of returning the rows:
`NestedPropertySerializer` declares the field `pricepernight`, which the
`Property` model does not declare (booking and payment lists), and
`MessageSerializer` declares `is_read`, which the `Message` model does not
declare (message lists), so a requester with even one participating record
gets `ImproperlyConfigured` (server 500); only an empty scoped list
renders, as for the stranger 3 below. -/
theorem C3_nonempty_list_render_crashes :
    BookingViewSet.list (some 7) [bookingEx]
      = .error (.improperlyConfigured "pricepernight")
    ∧ PaymentViewSet.list (some 7)
        [{ payment_id := 20, booking := bookingEx, amount := 60000 }]
      = .error (.improperlyConfigured "pricepernight")
    ∧ MessageViewSet.list (some 7)
        [{ message_id := 30, sender := 7, recipient := 2,
           message_body := "hi" }]
      = .error (.improperlyConfigured "is_read")
    ∧ BookingViewSet.list (some 3) [bookingEx] = .ok [] := by
  exact ⟨rfl, rfl, rfl, rfl⟩

/-- C4 counterexample: the claim says the object-level ownership check
independently enforces read scoping on direct-identifier access.  It does
not: `IsBookingOwner.has_object_permission` permits every safe (GET)
request, here one by user 3, who is neither the guest (user 1) nor the
host (user 2) of `bookingEx4`. -/
theorem C4_object_check_permits_nonowner_read :
    IsBookingOwner.has_object_permission true 3
      { booking_id := 11, property := propEx, user := 1,
        start_date := dateOrdinal 2025 8 1, end_date := dateOrdinal 2025 8 5,
        total_price := 60000, status := .pending } = true
    ∧ (3 : Nat) ≠ 1 ∧ propEx.host ≠ 3 := by
  exact ⟨rfl, by decide, by decide⟩

/-- C4 (amended): a retrieve by identifier from a user who participates in
no booking carrying that identifier fails with `notFound`; the hiding is
enforced by the query-time scoping filter alone, since the retrieve action
carries no object-level ownership check. -/
theorem C4_retrieve_scope_hidden (u : Nat) (bs : List Booking) (pk : Nat)
    (h : ∀ b ∈ bs, b.booking_id = pk → ¬(b.user = u ∨ b.property.host = u)) :
    BookingViewSet.retrieve u bs pk = .error .notFound := by
  unfold BookingViewSet.retrieve
  have hnone : (BookingViewSet.get_queryset (some u) bs).find?
      (fun b => b.booking_id == pk) = none := by
    apply List.find?_eq_none.mpr
    intro b hb
    have hmem := List.mem_filter.mp hb
    intro hbeq
    have hid : b.booking_id = pk := by simpa using hbeq
    have hpart : b.user = u ∨ b.property.host = u := by
      simpa using hmem.2
    exact h b hmem.1 hid hpart
  rw [hnone]

/-- C4 witness: user 3 (neither guest 7 nor host 2) retrieving booking 10
gets `notFound`. -/
theorem C4_retrieve_scope_hidden_witness :
    BookingViewSet.retrieve 3 [bookingEx] 10 = .error .notFound :=
  C4_retrieve_scope_hidden 3 [bookingEx] 10 (by decide)

/-- C5 counterexample: `bookingEx` satisfies the pricing equality
(600.00 = 150.00 × 4 nights), yet a permitted owner PATCH that only moves
the end date to 2025-08-03 succeeds without recomputing the price: the
stored record then shows 600.00 against 150.00 × 2 nights = 300.00, so the
equality is not an invariant. -/
theorem C5_date_patch_breaks_pricing_equality :
    BookingViewSet.patch_update 7 [bookingEx] [propEx, propEx2] [7] 10
        patchEndPayload
      = .ok { bookingEx with end_date := dateOrdinal 2025 8 3 }
    ∧ bookingEx.total_price
        = bookingEx.property.price_per_night
            * (bookingEx.end_date - bookingEx.start_date)
    ∧ ({ bookingEx with end_date := dateOrdinal 2025 8 3 } : Booking).total_price
        ≠ ({ bookingEx with end_date := dateOrdinal 2025 8 3 } : Booking).property.price_per_night
            * (({ bookingEx with end_date := dateOrdinal 2025 8 3 } : Booking).end_date
                - ({ bookingEx with end_date := dateOrdinal 2025 8 3 } : Booking).start_date) := by
  refine ⟨rfl, by decide, by decide⟩

/-- C5 (amended): `total_price` itself is immutable under every booking
update: whatever validated data `BookingSerializer.update` applies, a
successful result carries the instance's stored `total_price` unchanged
(the field is read-only and the method never recomputes it). -/
theorem C5_total_price_immutable_under_update (b r : Booking)
    (vd : BookingUpdateValidated)
    (h : BookingSerializer.update b vd = .ok r) :
    r.total_price = b.total_price := by
  unfold BookingSerializer.update at h
  split at h
  · exact absurd h (by simp)
  · cases hs : vd.status <;> rw [hs] at h <;> simp only [Except.ok.injEq] at h <;>
      subst h <;> rfl

/-- C5 witness: patching `bookingEx`'s end date keeps `total_price` at
600.00. -/
theorem C5_total_price_immutable_witness :
    ({ bookingEx with end_date := dateOrdinal 2025 8 3 } : Booking).total_price
      = bookingEx.total_price :=
  C5_total_price_immutable_under_update bookingEx
    { bookingEx with end_date := dateOrdinal 2025 8 3 }
    { property := none, user := none, start_date := none,
      end_date := some (dateOrdinal 2025 8 3), status := none } rfl

/-- C6 counterexample: the claim says the create payload must not accept a
guest identifier.  It does: deserialization accepts a body whose `user_id`
is 9 (a user other than the actor 7) and carries 9 into the validated
data. -/
theorem C6_payload_accepts_guest_identifier :
    BookingSerializer.toInternalCreate [propEx] [7, 9] (payloadWithGuest 9)
      = .ok { property := propEx, user := 9,
              start_date := dateOrdinal 2025 8 1,
              end_date := dateOrdinal 2025 8 5, status := none }
    ∧ (9 : Nat) ≠ 7 := by
  exact ⟨rfl, by decide⟩

/-- C6 (amended): the stored guest is never taken from the client: before
`BookingSerializer.create` runs, `perform_create` overwrites the validated
`user` with the authenticated actor, so two create requests by the same
actor that differ only in a (resolvable) client-supplied `user_id` have
identical outcomes. -/
theorem C6_guest_never_from_client (actor u1 u2 : Nat)
    (props : List Property) (users : List Nat) (p : BookingCreatePayload)
    (fresh : Nat) (h1 : users.contains u1 = true)
    (h2 : users.contains u2 = true) :
    BookingViewSet.viewCreate actor props users
        { p with user_id := some u1 } fresh
      = BookingViewSet.viewCreate actor props users
        { p with user_id := some u2 } fresh := by
  have h1m : u1 ∈ users := by simpa using h1
  have h2m : u2 ∈ users := by simpa using h2
  obtain ⟨pid?, uid?, sd?, ed?, st?⟩ := p
  cases pid? with
  | none => rfl
  | some pid =>
    cases hf : props.find? (fun pr => pr.property_id == pid) with
    | none =>
      simp [BookingViewSet.viewCreate, BookingSerializer.toInternalCreate, hf]
    | some pr =>
      cases sd? <;> cases ed? <;>
        simp [BookingViewSet.viewCreate, BookingSerializer.toInternalCreate,
          hf, h1m, h2m, Except.bind]

/-- C6 witness: actor 7 creating with client-supplied guest 8 and with
client-supplied guest 9 gets identical outcomes. -/
theorem C6_guest_never_from_client_witness :
    BookingViewSet.viewCreate 7 [propEx] [7, 8, 9]
        { payloadNoUser with user_id := some 8 } 100
      = BookingViewSet.viewCreate 7 [propEx] [7, 8, 9]
        { payloadNoUser with user_id := some 9 } 100 :=
  C6_guest_never_from_client 7 8 9 [propEx] [7, 8, 9] payloadNoUser 100
    (by decide) (by decide)

/-- C7: a create request whose end date is not strictly after its start
date never materializes a booking, and once field deserialization has
succeeded the failure is the `ValidationError`
"End date must be after start date.". -/
theorem C7_create_rejects_end_not_after_start (actor : Nat)
    (props : List Property) (users : List Nat) (p : BookingCreatePayload)
    (fresh : Nat) (s e : Int) (hs : p.start_date = some s)
    (he : p.end_date = some e) (hle : e ≤ s) :
    (∀ b : Booking, BookingViewSet.viewCreate actor props users p fresh ≠ .ok b) ∧
    (∀ vd : BookingValidated,
      BookingSerializer.toInternalCreate props users p = .ok vd →
        BookingViewSet.viewCreate actor props users p fresh
          = .error (.validation "End date must be after start date.")) := by
  obtain ⟨pid?, uid?, sd?, ed?, st?⟩ := p
  simp only at hs he
  subst hs he
  cases pid? with
  | none => exact ⟨fun b => by simp [BookingViewSet.viewCreate,
      BookingSerializer.toInternalCreate, Except.bind], fun vd h => by
      simp [BookingSerializer.toInternalCreate] at h⟩
  | some pid =>
    cases hf : props.find? (fun pr => pr.property_id == pid) with
    | none => exact ⟨fun b => by simp [BookingViewSet.viewCreate,
        BookingSerializer.toInternalCreate, hf, Except.bind], fun vd h => by
        simp [BookingSerializer.toInternalCreate, hf] at h⟩
    | some pr =>
      cases uid? with
      | none => exact ⟨fun b => by simp [BookingViewSet.viewCreate,
          BookingSerializer.toInternalCreate, hf, Except.bind], fun vd h => by
          simp [BookingSerializer.toInternalCreate, hf] at h⟩
      | some uid =>
        by_cases hu : uid ∈ users
        · have hcreate : BookingViewSet.viewCreate actor props users
              ⟨some pid, some uid, some s, some e, st?⟩ fresh
              = .error (.validation "End date must be after start date.") := by
            simp [BookingViewSet.viewCreate, BookingSerializer.toInternalCreate,
              hf, hu, Except.bind, BookingSerializer.create]
            omega
          exact ⟨fun b => by rw [hcreate]; simp, fun vd _ => hcreate⟩
        · exact ⟨fun b => by simp [BookingViewSet.viewCreate,
            BookingSerializer.toInternalCreate, hf, hu, Except.bind], fun vd h => by
            simp [BookingSerializer.toInternalCreate, hf, hu] at h⟩

/-- C7 witness: a request for 2025-08-05 to 2025-08-05 (zero nights) on
`propEx` by guest 7 is never materialized, and after successful field
deserialization fails with the exact date-order message. -/
theorem C7_create_rejects_witness :
    BookingViewSet.viewCreate 7 [propEx] [7]
      { property_id := some 1, user_id := some 7,
        start_date := some (dateOrdinal 2025 8 5),
        end_date := some (dateOrdinal 2025 8 5), status := none } 100
      = .error (.validation "End date must be after start date.") :=
  (C7_create_rejects_end_not_after_start 7 [propEx] [7]
      { property_id := some 1, user_id := some 7,
        start_date := some (dateOrdinal 2025 8 5),
        end_date := some (dateOrdinal 2025 8 5), status := none } 100
      (dateOrdinal 2025 8 5) (dateOrdinal 2025 8 5) rfl rfl le_rfl).2
    { property := propEx, user := 7, start_date := dateOrdinal 2025 8 5,
      end_date := dateOrdinal 2025 8 5, status := none } rfl

/-- C8: a review whose comment strips to the empty string is rejected with
the blank-field `ValidationError`, and a comment that is non-empty after
stripping is not rejected on that ground (the stripped text is kept). -/
theorem C8_comment_blank_check (c : String) :
    (pyStrip c = "" → ReviewSerializer.validateComment c
      = .error (.validation "comment: This field may not be blank.")) ∧
    (pyStrip c ≠ "" → ReviewSerializer.validateComment c = .ok (pyStrip c)) := by
  constructor
  · intro h
    unfold ReviewSerializer.validateComment
    rw [if_pos (Or.inr h)]
  · intro h
    unfold ReviewSerializer.validateComment
    rw [if_neg]
    rintro (hc | hc)
    · exact h (by rw [hc]; decide)
    · exact h hc

/-- C9: once the date-order check has passed (start strictly before end),
the whole-day night count is at least one, so the defensive
"at least one night" branch of `BookingSerializer.create` can never be the
outcome. -/
theorem C9_min_nights_check_unreachable (vd : BookingValidated)
    (fresh : Nat) (h : vd.start_date < vd.end_date) :
    1 ≤ vd.end_date - vd.start_date ∧
    BookingSerializer.create fresh vd
      ≠ .error (.validation "Booking must be for at least one night.") := by
  refine ⟨by omega, ?_⟩
  unfold BookingSerializer.create
  rw [if_neg (by omega)]
  dsimp only
  rw [if_neg (by omega)]
  simp [Property.decimalAttr]

/-- C9 witness: on the validated data of `bookingEx`'s request the night
count is positive and the defensive branch is not the outcome. -/
theorem C9_min_nights_check_witness :
    1 ≤ vdEx.end_date - vdEx.start_date ∧
    BookingSerializer.create 100 vdEx
      ≠ .error (.validation "Booking must be for at least one night.") :=
  C9_min_nights_check_unreachable vdEx 100 (by decide)

/-- C10: a create request whose body leaves out `user_id` fails with a
`ValidationError` (the serializer declares `user_id` required), so no
booking is materialized, although a supplied value would anyway be
overridden by the authenticated actor at save time. -/
theorem C10_missing_user_id_rejected (actor : Nat)
    (props : List Property) (users : List Nat) (p : BookingCreatePayload)
    (fresh : Nat) (h : p.user_id = none) :
    ∃ msg : String, BookingViewSet.viewCreate actor props users p fresh
      = .error (.validation msg) := by
  obtain ⟨pid?, uid?, sd?, ed?, st?⟩ := p
  simp only at h
  subst h
  cases pid? with
  | none => exact ⟨_, rfl⟩
  | some pid =>
    cases hf : props.find? (fun pr => pr.property_id == pid) with
    | none =>
      refine ⟨"property_id: Invalid pk - object does not exist.", ?_⟩
      simp [BookingViewSet.viewCreate, BookingSerializer.toInternalCreate,
        hf, Except.bind]
    | some pr =>
      refine ⟨"user_id: This field is required.", ?_⟩
      simp [BookingViewSet.viewCreate, BookingSerializer.toInternalCreate,
        hf, Except.bind]

/-- C10 witness: the body `payloadNoUser` (no `user_id`) is rejected with a
`ValidationError`. -/
theorem C10_missing_user_id_witness :
    ∃ msg : String, BookingViewSet.viewCreate 7 [propEx] [7] payloadNoUser 100
      = .error (.validation msg) :=
  C10_missing_user_id_rejected 7 [propEx] [7] payloadNoUser 100 rfl

/-- C8 witness: a whitespace-only comment and a vertical-tab-only comment
are rejected as blank, and a comment with surrounding whitespace is kept
stripped. -/
theorem C8_comment_blank_witness :
    ReviewSerializer.validateComment "   "
      = .error (.validation "comment: This field may not be blank.")
    ∧ ReviewSerializer.validateComment "\x0b"
      = .error (.validation "comment: This field may not be blank.")
    ∧ ReviewSerializer.validateComment " great stay "
      = .ok (pyStrip " great stay ") :=
  ⟨(C8_comment_blank_check "   ").1 (by decide),
   (C8_comment_blank_check "\x0b").1 (by decide),
   (C8_comment_blank_check " great stay ").2 (by decide)⟩
